import Mathlib

/-!
Shallow embedding of `binance_data_scraper.py` (BinanceHistoricalDataScraper).

The program discovers the active USDT trading pairs from the exchange-info
endpoint, fetches one batch of klines per symbol concurrently, builds one
pandas DataFrame per symbol (12 fixed positional columns plus an appended
`Symbol` column), concatenates them in task-creation order, converts the two
millisecond-epoch time columns with `pd.to_datetime`, sets `Open time` as the
index, drops the six auxiliary columns and writes the result to CSV.

The network is modelled as a pair of response oracles (one per endpoint); a
response is either a transport failure or a parsed JSON value.  Cells of a
kline row are modelled by `Val`; DataFrames are modelled positionally by
`Frame` / `IndexedFrame`.  Python exceptions (KeyError on a missing dict key,
the pandas column-count AssertionError) are modelled by `Except ScrapeError`.
-/

/-- A JSON-ish cell value of a kline row.  `ts n` is the value produced by
`pd.to_datetime (..., unit = ms)` from the integer `n`; `null` models the
`None`/`NaN` padding pandas inserts for short rows. -/
inductive Val where
  | str (s : String)
  | num (n : Int)
  | ts (n : Int)
  | null
deriving DecidableEq

/-- The failure modes the script can hit: a network failure of `fetch`, a
Python `KeyError key`, or the pandas constructor error raised when the
column-name count differs from the width of the passed data. -/
inductive ScrapeError where
  | transport
  | keyError (key : String)
  | columnsMismatch (passed : Nat) (got : Nat)
deriving DecidableEq

/-- A pandas DataFrame, positionally: column names and rows of cells. -/
structure Frame where
  columns : List String
  rows : List (List Val)
deriving DecidableEq

/-- A DataFrame after `set_index`: the index column is split out. -/
structure IndexedFrame where
  indexName : String
  index : List Val
  columns : List String
  rows : List (List Val)
deriving DecidableEq

/-- One entry of the `symbols` array of the exchange-info response.  A field
is `none` when the key is absent from the JSON object (Python then raises
`KeyError` on access). -/
structure InstrumentEntry where
  symbol : Option String
  status : Option String
deriving DecidableEq

/-- The exchange-info response body; `symbols = none` models a response
object without a `symbols` key. -/
structure ExchangeInfo where
  symbols : Option (List InstrumentEntry)
deriving DecidableEq

/-- The scraping parameters stored by `__init__`: `self.params = {tf, limit}`. -/
structure Params where
  tf : String
  limit : Int
deriving DecidableEq

/-- A frozen data source: the parsed response of each endpoint (or its
transport failure).  `klines s tf limit` is the body returned by the klines
endpoint for the query string built from `s`, `tf` and `limit`. -/
structure Network where
  exchangeInfo : Except ScrapeError ExchangeInfo
  klines : String → String → Int → Except ScrapeError (List (List Val))

/-- The state built by `BinanceHistoricalDataScraper.__init__`. -/
structure ScraperState where
  symbols_url : String
  symbols_list : List String
  params : Params
  historical_data : Frame
deriving DecidableEq

/-- `__init__(self, tf, limit)`: stores the parameters verbatim; performs no
validation and raises nothing (the docstring itself documents `Raises: None`). -/
def binanceHistoricalDataScraperInit (tf : String) (limit : Int) : ScraperState :=
  { symbols_url := "https://api.binance.com/api/v3/exchangeInfo"
    symbols_list := []
    params := { tf := tf, limit := limit }
    historical_data := { columns := [], rows := [] } }

/-- The 12 positional column names passed to `pd.DataFrame` in
`get_historical_data`. -/
def klineColumns : List String :=
  ["Open time", "Open", "High", "Low", "Close", "Volume", "Close time",
   "Quote asset volume", "Number of trades", "Taker buy base asset volume",
   "Taker buy quote asset volume", "Ignore"]

/-- The column labels dropped in `scrape` (line 82-84). -/
def droppedColumns : List String :=
  ["Close time", "Quote asset volume", "Number of trades",
   "Taker buy base asset volume", "Taker buy quote asset volume", "Ignore"]

/-- Python `str.endswith`, on the character lists of the strings. -/
def strEndsWith (s suffix : String) : Bool :=
  List.isSuffixOf suffix.data s.data

/-- Width of a list-of-lists as pandas computes it: the maximum row length. -/
def maxWidth (data : List (List Val)) : Nat :=
  data.foldr (fun r k => max r.length k) 0

/-- Pad a row on the right with `null` up to width `k` (pandas fills the
missing cells of short rows of a nested list with `None`). -/
def padTo (k : Nat) (r : List Val) : List Val :=
  r ++ List.replicate (k - r.length) Val.null

/-- `pd.DataFrame(data, columns=cols)` for a nested list `data`: an empty
list yields an empty frame with the given columns; otherwise pandas pads the
rows to the maximal width and raises (`AssertionError`,
"N columns passed, passed data had K columns") when the number of column
names differs from that width. -/
def pdDataFrame (data : List (List Val)) (cols : List String) :
    Except ScrapeError Frame :=
  match data with
  | [] => .ok { columns := cols, rows := [] }
  | r :: rs =>
    if cols.length = maxWidth (r :: rs) then
      .ok { columns := cols, rows := (r :: rs).map (padTo (maxWidth (r :: rs))) }
    else
      .error (.columnsMismatch cols.length (maxWidth (r :: rs)))

/-- `df[c] = v` for a scalar `v`: replace the column if present, else append
it as the last column (this is how `symbol_df [Symbol] = symbol` adds the
symbol tag as the final column). -/
def assignColumn (f : Frame) (c : String) (v : Val) : Frame :=
  match f.columns.findIdx? (fun x => x == c) with
  | some i => { columns := f.columns, rows := f.rows.map (fun r => r.set i v) }
  | none => { columns := f.columns ++ [c], rows := f.rows.map (fun r => r ++ [v]) }

/-- `df[c] = g(df[c])` column-wise: Python raises `KeyError c` when the
column is absent (as `pd.to_datetime (self.historical_data [..])` does on the
empty frame), else maps `g` over the column in place. -/
def mapColumn (f : Frame) (c : String) (g : Val → Val) :
    Except ScrapeError Frame :=
  match f.columns.findIdx? (fun x => x == c) with
  | some i =>
    .ok { columns := f.columns
          rows := f.rows.map (fun r => r.set i (g (r.getD i Val.null))) }
  | none => .error (.keyError c)

/-- `pd.to_datetime(x, unit= ms )` on one cell: an integer millisecond epoch
becomes a timestamp value. -/
def toDatetimeMs : Val → Val
  | .num n => .ts n
  | v => v

/-- `df.set_index(c, inplace=True)`: move column `c` out into the index. -/
def setIndex (f : Frame) (c : String) : Except ScrapeError IndexedFrame :=
  match f.columns.findIdx? (fun x => x == c) with
  | some i =>
    .ok { indexName := c
          index := f.rows.map (fun r => r.getD i Val.null)
          columns := f.columns.eraseIdx i
          rows := f.rows.map (fun r => r.eraseIdx i) }
  | none => .error (.keyError c)

/-- Drop one column label (`KeyError` when absent, as pandas `drop` raises). -/
def dropColumn (f : IndexedFrame) (c : String) : Except ScrapeError IndexedFrame :=
  match f.columns.findIdx? (fun x => x == c) with
  | some i =>
    .ok { indexName := f.indexName
          index := f.index
          columns := f.columns.eraseIdx i
          rows := f.rows.map (fun r => r.eraseIdx i) }
  | none => .error (.keyError c)

/-- `df.drop(labels, axis=1, inplace=True)` for a label list. -/
def dropColumns (f : IndexedFrame) : List String → Except ScrapeError IndexedFrame
  | [] => .ok f
  | c :: cs =>
    match dropColumn f c with
    | .error e => .error e
    | .ok f2 => dropColumns f2 cs

/-- `pd.concat([a, b], ignore_index=True)`: an empty no-column operand
contributes nothing; equal column lists stack the rows; otherwise the column
lists are outer-joined (first frame's order first) with `null` fill. -/
def pdConcat (a b : Frame) : Frame :=
  if a.columns = [] then { columns := b.columns, rows := a.rows ++ b.rows }
  else if b.columns = [] then { columns := a.columns, rows := a.rows ++ b.rows }
  else if a.columns = b.columns then { columns := a.columns, rows := a.rows ++ b.rows }
  else
    { columns := a.columns ++ b.columns.filter (fun c => !(a.columns.contains c))
      rows :=
        a.rows.map (fun r =>
          (a.columns ++ b.columns.filter (fun c => !(a.columns.contains c))).map
            (fun c => match a.columns.findIdx? (fun x => x == c) with
              | some i => r.getD i Val.null
              | none => Val.null)) ++
        b.rows.map (fun r =>
          (a.columns ++ b.columns.filter (fun c => !(a.columns.contains c))).map
            (fun c => match b.columns.findIdx? (fun x => x == c) with
              | some i => r.getD i Val.null
              | none => Val.null)) }

/-- The loop `for result in results: self.historical_data = pd.concat(...)`,
starting from the empty frame created in `__init__`. -/
def concatAll (fs : List Frame) : Frame :=
  fs.foldl pdConcat { columns := [], rows := [] }

/-- `get_historical_data(self, session, symbol, pbar)`: one GET to the klines
endpoint, `pd.DataFrame(response, columns=klineColumns)`, then
`symbol_df [Symbol] = symbol`.  (The progress-bar update is an external
side effect and is not modelled.) -/
def get_historical_data (net : Network) (params : Params) (symbol : String) :
    Except ScrapeError Frame :=
  match net.klines symbol params.tf params.limit with
  | .error e => .error e
  | .ok response =>
    match pdDataFrame response klineColumns with
    | .error e => .error e
    | .ok symbol_df => .ok (assignColumn symbol_df "Symbol" (Val.str symbol))

/-- The list comprehension of `scrape` (lines 63-64): keep
`symbol [symbol]` for every entry whose identifier ends with USDT and whose
`status` equals TRADING; accessing a missing key raises `KeyError`. -/
def filterUsdtTrading : List InstrumentEntry → Except ScrapeError (List String)
  | [] => .ok []
  | e :: es =>
    match e.symbol with
    | none => .error (.keyError "symbol")
    | some s =>
      if strEndsWith s "USDT" then
        match e.status with
        | none => .error (.keyError "status")
        | some st =>
          if st = "TRADING" then
            match filterUsdtTrading es with
            | .error err => .error err
            | .ok rest => .ok (s :: rest)
          else filterUsdtTrading es
      else filterUsdtTrading es

/-- `response [symbols]` followed by the USDT/TRADING filter. -/
def listSymbols (info : ExchangeInfo) : Except ScrapeError (List String) :=
  match info.symbols with
  | some entries => filterUsdtTrading entries
  | none => .error (.keyError "symbols")

/-- `asyncio.gather(*tasks)` over the per-symbol tasks created in list order:
results come back in task-creation order, and any task's exception is
propagated (the whole gather fails). -/
def asyncioGather (f : String → Except ScrapeError Frame) :
    List String → Except ScrapeError (List Frame)
  | [] => .ok []
  | s :: ss =>
    match f s with
    | .error e => .error e
    | .ok r =>
      match asyncioGather f ss with
      | .error e => .error e
      | .ok rs => .ok (r :: rs)

/-- Lines 60-75 of `scrape`: resolve the symbol list, gather one
`get_historical_data` result per symbol, and concatenate them in order into
`self.historical_data`. -/
def mergedFrame (net : Network) (params : Params) : Except ScrapeError Frame :=
  match net.exchangeInfo with
  | .error e => .error e
  | .ok info =>
    match listSymbols info with
    | .error e => .error e
    | .ok symbols_list =>
      match asyncioGather (get_historical_data net params) symbols_list with
      | .error e => .error e
      | .ok results => .ok (concatAll results)

/-- Lines 77-84 of `scrape`: convert the two time columns, set the index,
drop the auxiliary columns. -/
def postProcess : Except ScrapeError Frame → Except ScrapeError IndexedFrame
  | .error e => .error e
  | .ok hd =>
    match mapColumn hd "Open time" toDatetimeMs with
    | .error e => .error e
    | .ok hd2 =>
      match mapColumn hd2 "Close time" toDatetimeMs with
      | .error e => .error e
      | .ok hd3 =>
        match setIndex hd3 "Open time" with
        | .error e => .error e
        | .ok ixf => dropColumns ixf droppedColumns

/-- `scrape(self)`: the merge phase followed by the post-processing phase;
any uncaught exception of either phase aborts the coroutine. -/
def scrape (net : Network) (params : Params) : Except ScrapeError IndexedFrame :=
  postProcess (mergedFrame net params)

/-- `self.historical_data.to_csv(...)`: header row (index name first, then
the columns) and one data row per frame row (index cell first). -/
def to_csv (f : IndexedFrame) : List String × List (List Val) :=
  (f.indexName :: f.columns, (f.index.zip f.rows).map (fun p => p.1 :: p.2))

/-- One whole process run against a pre-existing output file: `to_csv` is the
final statement of `scrape`, so the file is (re)written only when everything
before it succeeded; an uncaught exception terminates the process with the
file untouched. -/
def runJob (net : Network) (params : Params)
    (prev : Option (List String × List (List Val))) :
    Option (List String × List (List Val)) :=
  match scrape net params with
  | .ok d => some (to_csv d)
  | .error _ => prev

/-- Columns of the merged frame: the 12 kline columns plus the appended
`Symbol` tag. -/
def mergedColumns : List String := klineColumns ++ ["Symbol"]

/-- Columns of the final dataset after `set_index` and `drop`. -/
def outputColumns : List String :=
  ["Open", "High", "Low", "Close", "Volume", "Symbol"]

/-- Projection of a named column of the final table (`[]` when absent). -/
def IndexedFrame.col (f : IndexedFrame) (c : String) : List Val :=
  match f.columns.findIdx? (fun x => x == c) with
  | some i => f.rows.map (fun r => r.getD i Val.null)
  | none => []

/-- Whether an `Except` result is a success. -/
def exceptOk {α : Type} : Except ScrapeError α → Bool
  | .ok _ => true
  | .error _ => false

/-- Number of kline rows the source serves for a symbol (0 on failure):
the length of the candle series the fetch would build. -/
def respLen (net : Network) (params : Params) (s : String) : Nat :=
  match net.klines s params.tf params.limit with
  | .ok r => r.length
  | .error _ => 0

/-- The rows of the per-symbol frame built by `get_historical_data` when it
succeeds: the padded response rows, each with the symbol tag appended. -/
def taggedRows (net : Network) (params : Params) (s : String) :
    List (List Val) :=
  match net.klines s params.tf params.limit with
  | .ok resp => resp.map (fun r => padTo (maxWidth resp) r ++ [Val.str s])
  | .error _ => []

/-- The raw (pre-conversion) open-time cells of a symbol's series: the first
cell of each padded response row. -/
def rawOpenTimes (net : Network) (params : Params) (s : String) : List Val :=
  match net.klines s params.tf params.limit with
  | .ok resp => resp.map (fun r => (padTo (maxWidth resp) r).getD 0 Val.null)
  | .error _ => []

/-- The two `pd.to_datetime` assignments applied to one 13-cell merged row. -/
def stage2Row (r : List Val) : List Val :=
  let r1 := r.set 0 (toDatetimeMs (r.getD 0 Val.null))
  r1.set 6 (toDatetimeMs (r1.getD 6 Val.null))

/-- The whole post-processing pipeline applied to one merged row: the two
time conversions, the removal of the index column, and the six drops (each
landing at position 5 of the shrinking row). -/
def finalRow (r : List Val) : List Val :=
  (((((((stage2Row r).eraseIdx 0).eraseIdx 5).eraseIdx 5).eraseIdx
    5).eraseIdx 5).eraseIdx 5).eraseIdx 5

/-- The final dataset obtained from the merged rows `R`. -/
def finalFrame (R : List (List Val)) : IndexedFrame :=
  { indexName := "Open time"
    index := R.map (fun r => (stage2Row r).getD 0 Val.null)
    columns := outputColumns
    rows := R.map finalRow }

/-- Modelled from the spec (section 4.2): the enumerated set of admissible
timeframes. -/
def specValidTimeframe (tf : String) : Bool :=
  ["1m", "3m", "5m", "15m", "30m", "1h", "2h", "4h", "8h", "1d"].contains tf

/-- Modelled from the spec (section 4.2): the admissible candle limits. -/
def specValidLimit (limit : Int) : Bool :=
  decide (1 ≤ limit) && decide (limit ≤ 1000)

/-- Total extractor used to name the concrete dataset of a successful run. -/
def forceOk (e : Except ScrapeError IndexedFrame) : IndexedFrame :=
  match e with
  | .ok d => d
  | .error _ => { indexName := "", index := [], columns := [], rows := [] }

/-- A well-formed 12-field kline row with open time `t`. -/
def kRow (t : Int) : List Val :=
  [Val.num t, Val.num 5, Val.num 9, Val.num 4, Val.num 7, Val.num 100,
   Val.num (t + 999), Val.num 250, Val.num 12, Val.num 60, Val.num 150,
   Val.num 0]

/-- Entry for the BTCUSDT pair, active. -/
def entryBtc : InstrumentEntry := { symbol := some "BTCUSDT", status := some "TRADING" }

/-- Entry for the ETHUSDT pair, active. -/
def entryEth : InstrumentEntry := { symbol := some "ETHUSDT", status := some "TRADING" }

/-- Entry for a non-USDT pair, active. -/
def entryEthBtc : InstrumentEntry := { symbol := some "ETHBTC", status := some "TRADING" }

/-- Entry for a USDT pair that is not trading. -/
def entryXrpBreak : InstrumentEntry := { symbol := some "XRPUSDT", status := some "BREAK" }

/-- Exchange info advertising the two active USDT pairs. -/
def infoTwo : ExchangeInfo := { symbols := some [entryBtc, entryEth] }

/-- Exchange info mixing USDT/non-USDT and trading/non-trading entries. -/
def infoMixed : ExchangeInfo := { symbols := some [entryBtc, entryEthBtc, entryXrpBreak] }

/-- Total extractor used to name the concrete per-symbol frame of a
successful fetch. -/
def forceOkFrame (e : Except ScrapeError Frame) : Frame :=
  match e with
  | .ok f => f
  | .error _ => { columns := [], rows := [] }

/-- Source where the ETHUSDT fetch fails while BTCUSDT succeeds. -/
def netC1 : Network :=
  { exchangeInfo := .ok infoTwo
    klines := fun s _ _ =>
      if s = "BTCUSDT" then .ok [kRow 0, kRow 1000] else .error .transport }

def paramsC1 : Params := { tf := "1h", limit := 500 }

/-- Source serving one symbol, answering every kline query. -/
def netC2 : Network :=
  { exchangeInfo := .ok { symbols := some [entryBtc] }
    klines := fun _ _ _ => .ok [kRow 0] }

/-- Source whose metadata endpoint fails with a transport error. -/
def netC2e : Network :=
  { exchangeInfo := .error .transport
    klines := fun _ _ _ => .ok [kRow 0] }

/-- Source with a 2-row series for BTCUSDT and a 3-row series for ETHUSDT. -/
def netC3 : Network :=
  { exchangeInfo := .ok infoTwo
    klines := fun s _ _ =>
      if s = "BTCUSDT" then .ok [kRow 0, kRow 1000]
      else .ok [kRow 0, kRow 1000, kRow 2000] }

def paramsC3 : Params := { tf := "1h", limit := 500 }

def dC3 : IndexedFrame := forceOk (scrape netC3 paramsC3)

/-- Source with a 2-row series for BTCUSDT and a 3-row series for ETHUSDT. -/
def netC4 : Network :=
  { exchangeInfo := .ok infoTwo
    klines := fun s _ _ =>
      if s = "BTCUSDT" then .ok [kRow 0, kRow 1000]
      else .ok [kRow 0, kRow 1000, kRow 2000] }

def paramsC4 : Params := { tf := "1h", limit := 500 }

def dC4 : IndexedFrame := forceOk (scrape netC4 paramsC4)

/-- Source whose metadata endpoint fails fatally. -/
def netC6 : Network :=
  { exchangeInfo := .error .transport
    klines := fun _ _ _ => .ok [kRow 0] }

def paramsC6 : Params := { tf := "1h", limit := 500 }

/-- A pre-existing output file's content. -/
def prevC6 : List String × List (List Val) := (["Open time"], [[Val.num 7]])

/-- Source serving a 3-row series; queried with limit 5. -/
def netC7 : Network :=
  { exchangeInfo := .ok { symbols := some [entryBtc] }
    klines := fun _ _ _ => .ok [kRow 0, kRow 1000, kRow 2000] }

def paramsC7 : Params := { tf := "1h", limit := 5 }

def fC7 : Frame := forceOkFrame (get_historical_data netC7 paramsC7 "BTCUSDT")

/-- A ragged response: one full 12-field row and one 11-field row. -/
def respC8 : List (List Val) := [kRow 0, (kRow 1000).take 11]

def netC8 : Network :=
  { exchangeInfo := .ok { symbols := some [entryBtc] }
    klines := fun _ _ _ => .ok respC8 }

/-- A response whose only row has 13 fields. -/
def respC8w : List (List Val) := [kRow 0 ++ [Val.num 9]]

def netC8w : Network :=
  { exchangeInfo := .ok { symbols := some [entryBtc] }
    klines := fun _ _ _ => .ok respC8w }

/-- Two sources with identical kline responses but different metadata. -/
def netC9a : Network :=
  { exchangeInfo := .ok infoTwo
    klines := fun _ _ _ => .ok [kRow 0] }

def netC9b : Network :=
  { exchangeInfo := .error .transport
    klines := fun _ _ _ => .ok [kRow 0] }

/-- Source with a 1-row series for BTCUSDT and a 2-row series for ETHUSDT. -/
def netC10 : Network :=
  { exchangeInfo := .ok infoTwo
    klines := fun s _ _ =>
      if s = "BTCUSDT" then .ok [kRow 0]
      else .ok [kRow 0, kRow 1000] }

def paramsC10 : Params := { tf := "4h", limit := 300 }

def dC10 : IndexedFrame := forceOk (scrape netC10 paramsC10)
/-- A list of cells of length 12 is an explicit 12-tuple. -/
theorem list_eq_twelve (p : List Val) (hp : p.length = 12) :
    ∃ a0 a1 a2 a3 a4 a5 a6 a7 a8 a9 a10 a11,
      p = [a0, a1, a2, a3, a4, a5, a6, a7, a8, a9, a10, a11] := by
  match p, hp with
  | [a0, a1, a2, a3, a4, a5, a6, a7, a8, a9, a10, a11], _ =>
    exact ⟨a0, a1, a2, a3, a4, a5, a6, a7, a8, a9, a10, a11, rfl⟩

/-- The post-processing pipeline maps a tagged 13-cell merged row to the six output cells, the symbol tag last. -/
theorem finalRow_tagged {p : List Val} (hp : p.length = 12) (v : Val) :
    finalRow (p ++ [v]) =
      [p.getD 1 Val.null, p.getD 2 Val.null, p.getD 3 Val.null,
       p.getD 4 Val.null, p.getD 5 Val.null, v] := by
  obtain ⟨a0, a1, a2, a3, a4, a5, a6, a7, a8, a9, a10, a11, rfl⟩ := list_eq_twelve p hp
  rfl

/-- The index cell extracted from a tagged merged row is the converted open-time cell. -/
theorem stage2Row_getD0 {p : List Val} (hp : p.length = 12) (v : Val) :
    (stage2Row (p ++ [v])).getD 0 Val.null = toDatetimeMs (p.getD 0 Val.null) := by
  obtain ⟨a0, a1, a2, a3, a4, a5, a6, a7, a8, a9, a10, a11, rfl⟩ := list_eq_twelve p hp
  rfl

/-- The post-processing phase on a merged frame with the 13 standard columns succeeds and produces the final dataset shape. -/
theorem postProcess_merged (R : List (List Val)) :
    postProcess (.ok { columns := mergedColumns, rows := R }) = .ok (finalFrame R) := by
  have h : postProcess (.ok { columns := mergedColumns, rows := R })
      = .ok { indexName := "Open time"
              index := ((R.map (fun r => r.set 0 (toDatetimeMs (r.getD 0 Val.null)))).map
                (fun r => r.set 6 (toDatetimeMs (r.getD 6 Val.null)))).map
                  (fun r => r.getD 0 Val.null)
              columns := outputColumns
              rows := (((((((((R.map (fun r => r.set 0 (toDatetimeMs (r.getD 0 Val.null)))).map
                (fun r => r.set 6 (toDatetimeMs (r.getD 6 Val.null)))).map
                (fun r => r.eraseIdx 0)).map (fun r => r.eraseIdx 5)).map
                (fun r => r.eraseIdx 5)).map (fun r => r.eraseIdx 5)).map
                (fun r => r.eraseIdx 5)).map (fun r => r.eraseIdx 5)).map
                (fun r => r.eraseIdx 5)) } := rfl
  rw [h]
  simp only [List.map_map, finalFrame]
  rfl

/-- Concatenation with the initial empty frame yields the other operand. -/
theorem pdConcat_empty_left (b : Frame) :
    pdConcat { columns := [], rows := [] } b = { columns := b.columns, rows := b.rows } := rfl

/-- Concatenation of frames with the same nonempty columns stacks the rows. -/
theorem pdConcat_same {C : List String} (hC : C ≠ []) (rs : List (List Val)) (g : Frame)
    (hg : g.columns = C) :
    pdConcat { columns := C, rows := rs } g = { columns := C, rows := rs ++ g.rows } := by
  unfold pdConcat
  simp [hC, hg]

/-- Folding concatenation over same-column frames appends all their rows in order. -/
theorem foldl_pdConcat_same {C : List String} (hC : C ≠ []) :
    ∀ (fs : List Frame) (rs : List (List Val)),
      (∀ g ∈ fs, g.columns = C) →
      fs.foldl pdConcat { columns := C, rows := rs }
        = { columns := C, rows := rs ++ (fs.map Frame.rows).flatten } := by
  intro fs
  induction fs with
  | nil => intro rs _; simp
  | cons g gs ih =>
    intro rs hcols
    have hg : g.columns = C := hcols g (List.mem_cons_self g gs)
    rw [List.foldl_cons, pdConcat_same hC rs g hg,
      ih (rs ++ g.rows) (fun f hf => hcols f (List.mem_cons_of_mem g hf))]
    simp

/-- The concatenation loop over the per-symbol frames stacks all rows under the shared columns. -/
theorem concatAll_same {C : List String} (hC : C ≠ []) (g : Frame) (gs : List Frame)
    (h : ∀ f ∈ g :: gs, f.columns = C) :
    concatAll (g :: gs) = { columns := C, rows := ((g :: gs).map Frame.rows).flatten } := by
  have hg : g.columns = C := h g (List.mem_cons_self g gs)
  unfold concatAll
  rw [List.foldl_cons, pdConcat_empty_left, hg,
    foldl_pdConcat_same hC gs g.rows (fun f hf => h f (List.mem_cons_of_mem g hf))]
  simp

/-- A successful gather returns exactly one successful result per task, in task-creation order. -/
theorem asyncioGather_ok_forall {f : String → Except ScrapeError Frame} :
    ∀ {l : List String} {rs : List Frame}, asyncioGather f l = .ok rs →
      List.Forall₂ (fun s r => f s = .ok r) l rs := by
  intro l
  induction l with
  | nil =>
    intro rs h
    simp only [asyncioGather] at h
    cases h
    exact List.Forall₂.nil
  | cons a as ih =>
    intro rs h
    simp only [asyncioGather] at h
    cases hfa : f a with
    | error e => rw [hfa] at h; cases h
    | ok r =>
      rw [hfa] at h
      cases hg : asyncioGather f as with
      | error e => rw [hg] at h; cases h
      | ok rest =>
        rw [hg] at h
        cases h
        exact List.Forall₂.cons hfa (ih hg)

/-- If any task of the gather fails, the whole gather fails. -/
theorem asyncioGather_error_of_mem {f : String → Except ScrapeError Frame}
    {l : List String} {s : String} {e : ScrapeError}
    (hs : s ∈ l) (hf : f s = .error e) :
    ∃ e2, asyncioGather f l = .error e2 := by
  induction l with
  | nil => cases hs
  | cons a as ih =>
    cases hs with
    | head => exact ⟨e, by simp only [asyncioGather, hf]⟩
    | tail _ hmem =>
      cases hfa : f a with
      | error e3 => exact ⟨e3, by simp only [asyncioGather, hfa]⟩
      | ok r =>
        obtain ⟨e2, hg⟩ := ih hmem
        exact ⟨e2, by simp only [asyncioGather, hfa, hg]⟩

/-- Characterization of a successful per-symbol fetch: columns, tagged rows, row count and width of the served response. -/
theorem ghd_char {net : Network} {params : Params} {s : String} {F : Frame}
    (h : get_historical_data net params s = .ok F) :
    F.columns = mergedColumns ∧ F.rows = taggedRows net params s ∧
      ∃ resp, net.klines s params.tf params.limit = .ok resp ∧
        F.rows.length = resp.length ∧ (resp = [] ∨ maxWidth resp = 12) := by
  unfold get_historical_data at h
  cases hk : net.klines s params.tf params.limit with
  | error e => rw [hk] at h; cases h
  | ok resp =>
    rw [hk] at h
    have htag : taggedRows net params s
        = resp.map (fun r => padTo (maxWidth resp) r ++ [Val.str s]) := by
      unfold taggedRows; rw [hk]
    cases resp with
    | nil =>
      simp only [pdDataFrame] at h
      cases h
      exact ⟨rfl, by rw [htag]; rfl, [], rfl, rfl, Or.inl rfl⟩
    | cons r rs =>
      simp only [pdDataFrame] at h
      by_cases h12 : klineColumns.length = maxWidth (r :: rs)
      · rw [if_pos h12] at h
        cases h
        have hw : maxWidth (r :: rs) = 12 := by rw [← h12]; rfl
        have hrows : (assignColumn
            { columns := klineColumns, rows := (r :: rs).map (padTo (maxWidth (r :: rs))) }
            "Symbol" (Val.str s)).rows = taggedRows net params s := by
          rw [htag]
          show ((r :: rs).map (padTo (maxWidth (r :: rs)))).map (fun row => row ++ [Val.str s])
              = (r :: rs).map (fun row => padTo (maxWidth (r :: rs)) row ++ [Val.str s])
          rw [List.map_map]
          rfl
        refine ⟨rfl, hrows, r :: rs, rfl, ?_, Or.inr hw⟩
        rw [hrows, htag]
        simp
      · rw [if_neg h12] at h; cases h

/-- Soundness of the symbol filter: every kept identifier ends with USDT and comes from a TRADING entry. -/
theorem filterUsdtTrading_sound :
    ∀ {es : List InstrumentEntry} {syms : List String},
      filterUsdtTrading es = .ok syms →
      ∀ s ∈ syms, strEndsWith s "USDT" = true ∧
        ∃ e ∈ es, e.symbol = some s ∧ e.status = some "TRADING" := by
  intro es
  induction es with
  | nil =>
    intro syms h s hs
    simp only [filterUsdtTrading] at h
    cases h
    cases hs
  | cons e es ih =>
    intro syms h s hs
    simp only [filterUsdtTrading] at h
    cases hsym : e.symbol with
    | none => simp only [hsym] at h; cases h
    | some a =>
      simp only [hsym] at h
      by_cases hend : strEndsWith a "USDT" = true
      · rw [if_pos hend] at h
        cases hst : e.status with
        | none => simp only [hst] at h; cases h
        | some st =>
          simp only [hst] at h
          by_cases htr : st = "TRADING"
          · rw [if_pos htr] at h
            cases hrec : filterUsdtTrading es with
            | error err => simp only [hrec] at h; cases h
            | ok rest =>
              simp only [hrec] at h
              cases h
              cases hs with
              | head => exact ⟨hend, e, List.mem_cons_self e es, hsym, by rw [hst, htr]⟩
              | tail _ hs =>
                obtain ⟨h1, e2, he2, h3, h4⟩ := ih hrec s hs
                exact ⟨h1, e2, List.mem_cons_of_mem e he2, h3, h4⟩
          · rw [if_neg htr] at h
            obtain ⟨h1, e2, he2, h3, h4⟩ := ih h s hs
            exact ⟨h1, e2, List.mem_cons_of_mem e he2, h3, h4⟩
      · rw [if_neg hend] at h
        obtain ⟨h1, e2, he2, h3, h4⟩ := ih h s hs
        exact ⟨h1, e2, List.mem_cons_of_mem e he2, h3, h4⟩

/-- Completeness of the symbol filter: every USDT-suffixed TRADING entry is kept. -/
theorem filterUsdtTrading_complete :
    ∀ {es : List InstrumentEntry} {syms : List String},
      filterUsdtTrading es = .ok syms →
      ∀ e ∈ es, ∀ a, e.symbol = some a → strEndsWith a "USDT" = true →
        e.status = some "TRADING" → a ∈ syms := by
  intro es
  induction es with
  | nil => intro syms h e he; cases he
  | cons e0 es ih =>
    intro syms h e he a hsym hend hst
    simp only [filterUsdtTrading] at h
    cases he with
    | head =>
      simp only [hsym] at h
      rw [if_pos hend] at h
      simp only [hst, if_true] at h
      cases hrec : filterUsdtTrading es with
      | error err => simp only [hrec] at h; cases h
      | ok rest => simp only [hrec] at h; cases h; exact List.mem_cons_self a rest
    | tail _ he =>
      cases hsym0 : e0.symbol with
      | none => simp only [hsym0] at h; cases h
      | some a0 =>
        simp only [hsym0] at h
        by_cases hend0 : strEndsWith a0 "USDT" = true
        · rw [if_pos hend0] at h
          cases hst0 : e0.status with
          | none => simp only [hst0] at h; cases h
          | some st0 =>
            simp only [hst0] at h
            by_cases htr0 : st0 = "TRADING"
            · rw [if_pos htr0] at h
              cases hrec : filterUsdtTrading es with
              | error err => simp only [hrec] at h; cases h
              | ok rest =>
                simp only [hrec] at h
                cases h
                exact List.mem_cons_of_mem a0 (ih hrec e he a hsym hend hst)
            · rw [if_neg htr0] at h
              exact ih h e he a hsym hend hst
        · rw [if_neg hend0] at h
          exact ih h e he a hsym hend hst

/-- flatMap respects pointwise equality on members. -/
theorem flatMap_congr_mem {α β : Type} (l : List α) (f g : α → List β)
    (h : ∀ x ∈ l, f x = g x) : l.flatMap f = l.flatMap g := by
  induction l with
  | nil => rfl
  | cons a as ih =>
    rw [List.flatMap_cons, List.flatMap_cons, h a (List.mem_cons_self a as),
      ih (fun x hx => h x (List.mem_cons_of_mem a hx))]

/-- map respects pointwise equality on members. -/
theorem map_congr_mem {α β : Type} (l : List α) (f g : α → β)
    (h : ∀ x ∈ l, f x = g x) : l.map f = l.map g := by
  induction l with
  | nil => rfl
  | cons a as ih =>
    rw [List.map_cons, List.map_cons, h a (List.mem_cons_self a as),
      ih (fun x hx => h x (List.mem_cons_of_mem a hx))]

/-- Mapping a constant function gives a replicate. -/
theorem map_const_mem {α β : Type} (l : List α) (b : β) :
    l.map (fun _ => b) = List.replicate l.length b := by
  induction l with
  | nil => rfl
  | cons a as ih => rw [List.map_cons, List.length_cons, List.replicate_succ, ih]

/-- Every row is at most as long as the maximal width. -/
theorem mem_length_le_maxWidth {r : List Val} {data : List (List Val)}
    (h : r ∈ data) : r.length ≤ maxWidth data := by
  induction data with
  | nil => cases h
  | cons a as ih =>
    cases h with
    | head => exact le_max_left _ _
    | tail _ h => exact le_trans (ih h) (le_max_right _ _)

/-- Padding a short row reaches exactly the target width. -/
theorem padTo_length {k : Nat} {r : List Val} (h : r.length ≤ k) :
    (padTo k r).length = k := by
  unfold padTo
  rw [List.length_append, List.length_replicate]
  omega

/-- A pointwise relation between two lists yields a related partner for each member of the first. -/
theorem forall2_mem_left {P : String → Frame → Prop} :
    ∀ {l : List String} {rs : List Frame}, List.Forall₂ P l rs →
      ∀ s ∈ l, ∃ F, F ∈ rs ∧ P s F := by
  intro l rs h
  induction h with
  | nil => intro s hs; cases hs
  | cons hp _ ih =>
    intro s hs
    cases hs with
    | head => exact ⟨_, List.mem_cons_self _ _, hp⟩
    | tail _ hs =>
      obtain ⟨F, hF, hPF⟩ := ih s hs
      exact ⟨F, List.mem_cons_of_mem _ hF, hPF⟩

/-- The gathered frames carry the tagged rows of their symbols and the 13 standard columns. -/
theorem forall2_map_rows {net : Network} {params : Params} :
    ∀ {syms : List String} {results : List Frame},
      List.Forall₂ (fun s F => get_historical_data net params s = .ok F) syms results →
      results.map Frame.rows = syms.map (taggedRows net params) ∧
        ∀ F ∈ results, F.columns = mergedColumns := by
  intro syms results h
  induction h with
  | nil => exact ⟨rfl, by intro F hF; cases hF⟩
  | cons hp _ ih =>
    obtain ⟨hcols, hrows, _⟩ := ghd_char hp
    refine ⟨by rw [List.map_cons, List.map_cons, hrows, ih.1], ?_⟩
    intro F hF
    cases hF with
    | head => exact hcols
    | tail _ hF => exact ih.2 F hF

/-- A symbol contributes exactly as many tagged rows as its response has rows. -/
theorem taggedRows_length (net : Network) (params : Params) (s : String) :
    (taggedRows net params s).length = respLen net params s := by
  unfold taggedRows respLen
  cases net.klines s params.tf params.limit <;> simp

/-- Within one symbol block, the Symbol cell of every final row is that symbol. -/
theorem block_symbol {net : Network} {params : Params} {s : String} {resp : List (List Val)}
    (hk : net.klines s params.tf params.limit = .ok resp)
    (hw : resp = [] ∨ maxWidth resp = 12) :
    (taggedRows net params s).map (fun r => (finalRow r).getD 5 Val.null)
      = List.replicate (respLen net params s) (Val.str s) := by
  have ht : taggedRows net params s
      = resp.map (fun r => padTo (maxWidth resp) r ++ [Val.str s]) := by
    unfold taggedRows; rw [hk]
  have hl : respLen net params s = resp.length := by
    unfold respLen; rw [hk]
  rw [ht, hl, List.map_map]
  cases hw with
  | inl hnil => subst hnil; rfl
  | inr h12 =>
    have hpt : ∀ row ∈ resp,
        ((fun r => (finalRow r).getD 5 Val.null) ∘
          (fun r => padTo (maxWidth resp) r ++ [Val.str s])) row = Val.str s := by
      intro row hrow
      have hle : row.length ≤ maxWidth resp := mem_length_le_maxWidth hrow
      have hp : (padTo (maxWidth resp) row).length = 12 := by
        rw [padTo_length hle, h12]
      show (finalRow (padTo (maxWidth resp) row ++ [Val.str s])).getD 5 Val.null = Val.str s
      rw [finalRow_tagged hp]
      rfl
    rw [map_congr_mem resp _ (fun _ => Val.str s) hpt, map_const_mem]

/-- Within one symbol block, the final index cells are the converted raw open times. -/
theorem block_opentimes {net : Network} {params : Params} {s : String} {resp : List (List Val)}
    (hk : net.klines s params.tf params.limit = .ok resp)
    (hw : resp = [] ∨ maxWidth resp = 12) :
    (taggedRows net params s).map (fun r => (stage2Row r).getD 0 Val.null)
      = (rawOpenTimes net params s).map toDatetimeMs := by
  have ht : taggedRows net params s
      = resp.map (fun r => padTo (maxWidth resp) r ++ [Val.str s]) := by
    unfold taggedRows; rw [hk]
  have hr : rawOpenTimes net params s
      = resp.map (fun r => (padTo (maxWidth resp) r).getD 0 Val.null) := by
    unfold rawOpenTimes; rw [hk]
  rw [ht, hr, List.map_map, List.map_map]
  cases hw with
  | inl hnil => subst hnil; rfl
  | inr h12 =>
    apply map_congr_mem
    intro row hrow
    have hle : row.length ≤ maxWidth resp := mem_length_le_maxWidth hrow
    have hp : (padTo (maxWidth resp) row).length = 12 := by
      rw [padTo_length hle, h12]
    show (stage2Row (padTo (maxWidth resp) row ++ [Val.str s])).getD 0 Val.null
        = toDatetimeMs ((padTo (maxWidth resp) row).getD 0 Val.null)
    rw [stage2Row_getD0 hp]

/-- Characterization of a successful run: catalog resolution, final column shape, row cardinality, Symbol block structure and converted index. -/
theorem scrape_ok_char {net : Network} {params : Params} {d : IndexedFrame}
    (h : scrape net params = .ok d) :
    ∃ info syms,
      net.exchangeInfo = .ok info ∧
      listSymbols info = .ok syms ∧
      (∀ s ∈ syms, ∃ F, get_historical_data net params s = .ok F) ∧
      d.indexName = "Open time" ∧
      d.columns = outputColumns ∧
      d.rows.length = (syms.map (respLen net params)).sum ∧
      d.index.length = d.rows.length ∧
      IndexedFrame.col d "Symbol"
        = syms.flatMap (fun s => List.replicate (respLen net params s) (Val.str s)) ∧
      d.index = (syms.flatMap (rawOpenTimes net params)).map toDatetimeMs := by
  unfold scrape at h
  cases hm : mergedFrame net params with
  | error e => rw [hm] at h; cases h
  | ok m =>
    rw [hm] at h
    unfold mergedFrame at hm
    cases hx : net.exchangeInfo with
    | error e => simp only [hx] at hm; cases hm
    | ok info =>
      simp only [hx] at hm
      cases hl : listSymbols info with
      | error e => simp only [hl] at hm; cases hm
      | ok syms =>
        simp only [hl] at hm
        cases hg : asyncioGather (get_historical_data net params) syms with
        | error e => simp only [hg] at hm; cases hm
        | ok results =>
          simp only [hg] at hm
          cases hm
          have hf2 := asyncioGather_ok_forall hg
          have hmem : ∀ s ∈ syms, ∃ F, get_historical_data net params s = .ok F := by
            intro s hs
            obtain ⟨F, _, hF⟩ := forall2_mem_left hf2 s hs
            exact ⟨F, hF⟩
          obtain ⟨hrows_eq, hcols_all⟩ := forall2_map_rows hf2
          have hper : ∀ s ∈ syms, ∃ resp,
              net.klines s params.tf params.limit = .ok resp ∧
                (resp = [] ∨ maxWidth resp = 12) := by
            intro s hs
            obtain ⟨F, hF⟩ := hmem s hs
            obtain ⟨_, _, resp, hk2, _, hw2⟩ := ghd_char hF
            exact ⟨resp, hk2, hw2⟩
          cases hf2 with
          | nil =>
            have hpe : postProcess (.ok (concatAll ([] : List Frame)))
                = .error (.keyError "Open time") := rfl
            rw [hpe] at h
            cases h
          | cons hp0 htail =>
            rename_i s0 F0 ss Fs
            have hC : mergedColumns ≠ [] := by simp [mergedColumns, klineColumns]
            have hRdef : concatAll (F0 :: Fs)
                = { columns := mergedColumns,
                    rows := (s0 :: ss).flatMap (taggedRows net params) } := by
              rw [concatAll_same hC F0 Fs hcols_all, hrows_eq]
              rfl
            rw [hRdef, postProcess_merged] at h
            cases h
            refine ⟨info, s0 :: ss, rfl, hl, hmem, rfl, rfl, ?_, ?_, ?_, ?_⟩
            · show (((s0 :: ss).flatMap (taggedRows net params)).map finalRow).length
                = (List.map (respLen net params) (s0 :: ss)).sum
              rw [List.length_map, List.length_flatMap]
              apply congrArg
              exact map_congr_mem _ _ _ (fun s _ => taggedRows_length net params s)
            · show (((s0 :: ss).flatMap (taggedRows net params)).map
                  (fun r => (stage2Row r).getD 0 Val.null)).length
                = (((s0 :: ss).flatMap (taggedRows net params)).map finalRow).length
              rw [List.length_map, List.length_map]
            · show (((s0 :: ss).flatMap (taggedRows net params)).map finalRow).map
                  (fun r => r.getD 5 Val.null)
                = (s0 :: ss).flatMap
                    (fun s => List.replicate (respLen net params s) (Val.str s))
              rw [List.map_map, List.map_flatMap]
              apply flatMap_congr_mem
              intro s hs
              obtain ⟨resp, hk2, hw2⟩ := hper s hs
              have hb := block_symbol hk2 hw2
              simpa [Function.comp] using hb
            · show ((s0 :: ss).flatMap (taggedRows net params)).map
                  (fun r => (stage2Row r).getD 0 Val.null)
                = ((s0 :: ss).flatMap (rawOpenTimes net params)).map toDatetimeMs
              rw [List.map_flatMap, List.map_flatMap]
              apply flatMap_congr_mem
              intro s hs
              obtain ⟨resp, hk2, hw2⟩ := hper s hs
              exact block_opentimes hk2 hw2
/-- C1 counterexample: against `netC1` the ETHUSDT fetch alone fails with a
transport error while the BTCUSDT fetch succeeds, yet `scrape` does not
complete with the BTCUSDT rows - the whole job fails, so the claimed
per-symbol error isolation does not hold on the code. -/
theorem one_symbol_failure_sinks_batch_cex :
    get_historical_data netC1 paramsC1 "ETHUSDT" = .error .transport ∧
    exceptOk (get_historical_data netC1 paramsC1 "BTCUSDT") = true ∧
    scrape netC1 paramsC1 = .error .transport := ⟨rfl, rfl, rfl⟩

/-- C1 (amended): a failure of the candle fetch for any individual symbol of
the catalog aborts the whole batch - the unguarded `asyncio.gather` wait
propagates the exception, `scrape` fails and no dataset is produced. -/
theorem scrape_aborts_on_symbol_failure (net : Network) (params : Params)
    (info : ExchangeInfo) (syms : List String) (s : String) (e : ScrapeError)
    (hx : net.exchangeInfo = .ok info) (hl : listSymbols info = .ok syms)
    (hs : s ∈ syms) (hf : get_historical_data net params s = .error e) :
    ∃ e2, scrape net params = .error e2 := by
  obtain ⟨e2, hg⟩ := asyncioGather_error_of_mem hs hf
  refine ⟨e2, ?_⟩
  have hmf : mergedFrame net params = .error e2 := by
    unfold mergedFrame
    simp only [hx, hl, hg]
  unfold scrape
  rw [hmf]
  rfl

/-- C1 witness: the amended abort property at the concrete source `netC1`. -/
theorem scrape_aborts_on_symbol_failure_witness :
    ∃ e2, scrape netC1 paramsC1 = .error e2 :=
  scrape_aborts_on_symbol_failure netC1 paramsC1 infoTwo ["BTCUSDT", "ETHUSDT"]
    "ETHUSDT" .transport rfl rfl (by simp) rfl

/-- C2 counterexample: the timeframe "2d" is outside the enumerated set and
5000 is outside [1, 1000], yet configuration succeeds (storing both verbatim)
and the job runs to completion against a responsive source - no
InvalidParameter is raised and the job does start. -/
theorem invalid_params_accepted_cex :
    specValidTimeframe "2d" = false ∧ specValidLimit 5000 = false ∧
    (binanceHistoricalDataScraperInit "2d" 5000).params = { tf := "2d", limit := 5000 } ∧
    exceptOk (scrape netC2 { tf := "2d", limit := 5000 }) = true := ⟨rfl, rfl, rfl, rfl⟩

/-- C2 (amended): no parameter validation exists - for every timeframe and
limit, valid or not, configuration succeeds storing them verbatim and the job
proceeds to the metadata network call (whose transport failure is observed,
showing the call is reached with no prior InvalidParameter). -/
theorem init_stores_params_unvalidated (tf : String) (limit : Int) (net : Network) :
    (binanceHistoricalDataScraperInit tf limit).params = { tf := tf, limit := limit } ∧
      (net.exchangeInfo = .error .transport →
        scrape net { tf := tf, limit := limit } = .error .transport) := by
  refine ⟨rfl, fun h => ?_⟩
  have hmf : mergedFrame net { tf := tf, limit := limit } = .error .transport := by
    unfold mergedFrame
    simp only [h]
  unfold scrape
  rw [hmf]
  rfl

/-- C2 witness: the amended no-validation property at tf = "2d", limit = 5000
against a source whose metadata endpoint fails. -/
theorem init_stores_params_unvalidated_witness :
    (binanceHistoricalDataScraperInit "2d" 5000).params = { tf := "2d", limit := 5000 } ∧
      scrape netC2e { tf := "2d", limit := 5000 } = .error .transport :=
  ⟨(init_stores_params_unvalidated "2d" 5000 netC2e).1,
   (init_stores_params_unvalidated "2d" 5000 netC2e).2 rfl⟩

/-- C3: for every successful run, the dataset's row count equals the sum of
the lengths of the per-symbol candle series (no row duplicated or dropped in
the merge), every row carries exactly one Symbol cell, and that cell holds a
symbol of the catalog snapshot taken at job start. -/
theorem dataset_cardinality_and_tagging {net : Network} {params : Params}
    {d : IndexedFrame} (h : scrape net params = .ok d) :
    ∃ info syms, net.exchangeInfo = .ok info ∧ listSymbols info = .ok syms ∧
      d.rows.length = (syms.map (respLen net params)).sum ∧
      (IndexedFrame.col d "Symbol").length = d.rows.length ∧
      ∀ v ∈ IndexedFrame.col d "Symbol", ∃ s ∈ syms, v = Val.str s := by
  obtain ⟨info, syms, hx, hl, _, _, _, hlen, _, hcol, _⟩ := scrape_ok_char h
  refine ⟨info, syms, hx, hl, hlen, ?_, ?_⟩
  · rw [hcol, hlen, List.length_flatMap]
    apply congrArg
    apply map_congr_mem
    intro s _
    show (List.replicate (respLen net params s) (Val.str s)).length = respLen net params s
    rw [List.length_replicate]
  · intro v hv
    rw [hcol, List.mem_flatMap] at hv
    obtain ⟨s, hs, hv⟩ := hv
    exact ⟨s, hs, List.eq_of_mem_replicate hv⟩

/-- C3 witness: the cardinality and tagging property on the concrete run with
a 2-row BTCUSDT series and a 3-row ETHUSDT series (5 rows total). -/
theorem dataset_cardinality_and_tagging_witness :
    ∃ info syms, netC3.exchangeInfo = .ok info ∧ listSymbols info = .ok syms ∧
      dC3.rows.length = (syms.map (respLen netC3 paramsC3)).sum ∧
      (IndexedFrame.col dC3 "Symbol").length = dC3.rows.length ∧
      ∀ v ∈ IndexedFrame.col dC3 "Symbol", ∃ s ∈ syms, v = Val.str s :=
  dataset_cardinality_and_tagging rfl

/-- C4 counterexample: on a successful concrete run the written header is
Open time, Open, High, Low, Close, Volume, Symbol - the Symbol column is
appended last by `symbol_df [Symbol] = symbol`, not placed right after the
open-time column as the claim states. -/
theorem symbol_column_position_cex :
    scrape netC4 paramsC4 = .ok dC4 ∧
    (to_csv dC4).1 = ["Open time", "Open", "High", "Low", "Close", "Volume", "Symbol"] ∧
    ¬ (to_csv dC4).1 = ["Open time", "Symbol", "Open", "High", "Low", "Close", "Volume"] :=
  ⟨rfl, rfl, by decide⟩

/-- C4 (amended): for every successful run the written table has the
open-time timestamp as its first column followed by Open, High, Low, Close,
Volume, Symbol in that order (Symbol last); the auxiliary columns are
dropped, the table is keyed by open time, the index cells are the raw
millisecond open times converted by to_datetime, and there is one row per
candle. -/
theorem output_table_shape {net : Network} {params : Params} {d : IndexedFrame}
    (h : scrape net params = .ok d) :
    ∃ info syms, net.exchangeInfo = .ok info ∧ listSymbols info = .ok syms ∧
      (to_csv d).1 = ["Open time", "Open", "High", "Low", "Close", "Volume", "Symbol"] ∧
      d.indexName = "Open time" ∧
      d.index = (syms.flatMap (rawOpenTimes net params)).map toDatetimeMs ∧
      (to_csv d).2.length = (syms.map (respLen net params)).sum := by
  obtain ⟨info, syms, hx, hl, _, hixn, hcols, hlen, hixlen, _, hix⟩ := scrape_ok_char h
  refine ⟨info, syms, hx, hl, ?_, hixn, hix, ?_⟩
  · show d.indexName :: d.columns = _
    rw [hixn, hcols]
    rfl
  · show ((d.index.zip d.rows).map (fun p => p.1 :: p.2)).length = _
    rw [List.length_map, List.length_zip, hixlen, min_self, hlen]

/-- C4 witness: the amended output-shape property on the concrete run over
`netC4`. -/
theorem output_table_shape_witness :
    ∃ info syms, netC4.exchangeInfo = .ok info ∧ listSymbols info = .ok syms ∧
      (to_csv dC4).1 = ["Open time", "Open", "High", "Low", "Close", "Volume", "Symbol"] ∧
      dC4.indexName = "Open time" ∧
      dC4.index = (syms.flatMap (rawOpenTimes netC4 paramsC4)).map toDatetimeMs ∧
      (to_csv dC4).2.length = (syms.map (respLen netC4 paramsC4)).sum :=
  output_table_shape rfl

/-- C5: the symbol catalog returns exactly the entries whose identifier ends
with "USDT" and whose status equals "TRADING": every returned symbol
satisfies both conditions, and every entry satisfying both is returned. -/
theorem catalog_filter_exact (info : ExchangeInfo) (entries : List InstrumentEntry)
    (syms : List String) (h1 : info.symbols = some entries)
    (h2 : listSymbols info = .ok syms) :
    (∀ s ∈ syms, strEndsWith s "USDT" = true ∧
      ∃ e ∈ entries, e.symbol = some s ∧ e.status = some "TRADING") ∧
    (∀ e ∈ entries, ∀ a, e.symbol = some a → strEndsWith a "USDT" = true →
      e.status = some "TRADING" → a ∈ syms) := by
  unfold listSymbols at h2
  simp only [h1] at h2
  exact ⟨filterUsdtTrading_sound h2, filterUsdtTrading_complete h2⟩

/-- C5 witness: the filter property on a concrete instrument list mixing
USDT/non-USDT and TRADING/non-TRADING entries. -/
theorem catalog_filter_exact_witness :
    (∀ s ∈ ["BTCUSDT"], strEndsWith s "USDT" = true ∧
      ∃ e ∈ [entryBtc, entryEthBtc, entryXrpBreak],
        e.symbol = some s ∧ e.status = some "TRADING") ∧
    (∀ e ∈ [entryBtc, entryEthBtc, entryXrpBreak], ∀ a, e.symbol = some a →
      strEndsWith a "USDT" = true → e.status = some "TRADING" → a ∈ ["BTCUSDT"]) :=
  catalog_filter_exact infoMixed [entryBtc, entryEthBtc, entryXrpBreak] ["BTCUSDT"] rfl rfl

/-- C6: every run that fails (in particular on a catalog-level transport or
schema failure) terminates with an error before `to_csv` is reached: no
output file is written and a pre-existing output file is left untouched. -/
theorem fatal_failure_no_write (net : Network) (params : Params)
    (prev : Option (List String × List (List Val))) (e : ScrapeError)
    (h : scrape net params = .error e) : runJob net params prev = prev := by
  unfold runJob
  rw [h]

/-- C6 witness: a run whose metadata endpoint fails leaves the pre-existing
output file exactly as it was. -/
theorem fatal_failure_no_write_witness :
    runJob netC6 paramsC6 (some prevC6) = some prevC6 :=
  fatal_failure_no_write netC6 paramsC6 (some prevC6) .transport rfl

/-- C7: for every successful fetch whose source honours the requested limit
(serves at most `limit` rows), the returned candle series has length at most
`limit`. -/
theorem series_length_at_most_limit (net : Network) (params : Params)
    (s : String) (F : Frame) (resp : List (List Val))
    (hk : net.klines s params.tf params.limit = .ok resp)
    (hhon : (resp.length : Int) ≤ params.limit)
    (h : get_historical_data net params s = .ok F) :
    (F.rows.length : Int) ≤ params.limit := by
  obtain ⟨_, _, resp2, hk2, hlen, _⟩ := ghd_char h
  rw [hk] at hk2
  cases hk2
  rw [hlen]
  exact hhon

/-- C7 witness: a 3-row response against limit 5 yields a series of length at
most 5. -/
theorem series_length_at_most_limit_witness :
    ((fC7.rows.length : Int) ≤ paramsC7.limit) :=
  series_length_at_most_limit netC7 paramsC7 "BTCUSDT" fC7
    [kRow 0, kRow 1000, kRow 2000] rfl (by decide) rfl

/-- C8 counterexample: a response containing an 11-field row next to a
12-field row does not make the fetch fail - pandas pads the short row with
nulls and the fetch returns a series, so "any row without exactly 12 fields
fails" is false on the code. -/
theorem short_row_accepted_cex :
    netC8.klines "BTCUSDT" "1h" 5 = .ok respC8 ∧
    ((kRow 1000).take 11).length = 11 ∧
    exceptOk (get_historical_data netC8 { tf := "1h", limit := 5 } "BTCUSDT") = true :=
  ⟨rfl, rfl, rfl⟩

/-- C8 (amended): the candle fetch fails with the column-count error exactly
when the nonempty response's maximal row width differs from the expected 12
fields (shorter rows beside a 12-field row are padded instead); and the
catalog fails with a key error when the metadata response lacks the
`symbols` key, when an entry lacks its `symbol` key, or when a USDT-suffixed
entry lacks its `status` key. -/
theorem schema_error_conditions :
    (∀ (net : Network) (params : Params) (s : String) (resp : List (List Val)),
      net.klines s params.tf params.limit = .ok resp → resp ≠ [] →
      maxWidth resp ≠ 12 →
      get_historical_data net params s = .error (.columnsMismatch 12 (maxWidth resp))) ∧
    listSymbols { symbols := none } = .error (.keyError "symbols") ∧
    (∀ (e : InstrumentEntry) (es : List InstrumentEntry), e.symbol = none →
      filterUsdtTrading (e :: es) = .error (.keyError "symbol")) ∧
    (∀ (e : InstrumentEntry) (es : List InstrumentEntry) (a : String),
      e.symbol = some a → strEndsWith a "USDT" = true → e.status = none →
      filterUsdtTrading (e :: es) = .error (.keyError "status")) := by
  refine ⟨?_, rfl, ?_, ?_⟩
  · intro net params s resp hk hne h12
    unfold get_historical_data
    rw [hk]
    cases resp with
    | nil => exact absurd rfl hne
    | cons r rs =>
      have hcond : ¬ (klineColumns.length = maxWidth (r :: rs)) := by
        intro hc
        apply h12
        rw [← hc]
        rfl
      simp only [pdDataFrame]
      rw [if_neg hcond]
      rfl
  · intro e es h
    simp only [filterUsdtTrading, h]
  · intro e es a hsym hend hst
    simp only [filterUsdtTrading, hsym]
    rw [if_pos hend]
    simp only [hst]

/-- C8 witness: a response whose single row has 13 fields makes the fetch
fail with the 12-versus-13 column-count error. -/
theorem schema_error_conditions_witness :
    get_historical_data netC8w { tf := "1h", limit := 5 } "BTCUSDT"
      = .error (.columnsMismatch 12 13) :=
  schema_error_conditions.1 netC8w { tf := "1h", limit := 5 } "BTCUSDT" respC8w
    rfl (by decide) (by decide)

/-- C9: the candle fetch is a deterministic function of its parameters and
the frozen source's response: two sources agreeing on the response for
(symbol, timeframe, limit) yield identical fetch results. -/
theorem fetch_deterministic (net1 net2 : Network) (params : Params) (s : String)
    (h : net1.klines s params.tf params.limit = net2.klines s params.tf params.limit) :
    get_historical_data net1 params s = get_historical_data net2 params s := by
  unfold get_historical_data
  rw [h]

/-- C9 witness: two sources with identical kline responses (but different
metadata endpoints) give the same fetch result for BTCUSDT. -/
theorem fetch_deterministic_witness :
    get_historical_data netC9a { tf := "1h", limit := 500 } "BTCUSDT"
      = get_historical_data netC9b { tf := "1h", limit := 500 } "BTCUSDT" :=
  fetch_deterministic netC9a netC9b { tf := "1h", limit := 500 } "BTCUSDT" rfl

/-- C10: the merged dataset is deterministic given fixed responses, and its
Symbol column is a concatenation of contiguous per-symbol blocks in exactly
the catalog's symbol order - rows of different symbols are never
interleaved. -/
theorem merge_order_blocks {net : Network} {params : Params} {d : IndexedFrame}
    (h : scrape net params = .ok d) :
    ∃ info syms, net.exchangeInfo = .ok info ∧ listSymbols info = .ok syms ∧
      IndexedFrame.col d "Symbol"
        = syms.flatMap (fun s => List.replicate (respLen net params s) (Val.str s)) := by
  obtain ⟨info, syms, hx, hl, _, _, _, _, _, hcol, _⟩ := scrape_ok_char h
  exact ⟨info, syms, hx, hl, hcol⟩

/-- C10 witness: the block structure on a concrete run (one BTCUSDT row then
two ETHUSDT rows). -/
theorem merge_order_blocks_witness :
    ∃ info syms, netC10.exchangeInfo = .ok info ∧ listSymbols info = .ok syms ∧
      IndexedFrame.col dC10 "Symbol"
        = syms.flatMap (fun s => List.replicate (respLen netC10 paramsC10 s) (Val.str s)) :=
  merge_order_blocks rfl
